import Mathlib

/-!
Verification of `src/visualizador.py` (inventory dashboard).

The file shallowly embeds the data-transformation core of the script:
the ingestion pipeline `load_and_process_data` and the view-engine
derivations (`df_filtrado`, `df_resumen_producto`, the selector option
lists, the pie-chart groupings and the top-10 bar-chart table).

Spreadsheet cells are modelled by `Cell` (a null/NaN cell, a text cell,
or a numeric cell).  The pandas string operations used by the script
(`astype(str)`, `.str.strip()`, `.str.upper()`, `pd.to_numeric` on
integer-literal cells, Python string comparison) are defined at the
character level so that everything evaluates inside the kernel.
-/

/-- A spreadsheet cell: empty (pandas NaN), a string, or a number.
`pd.read_excel` yields NaN for blank cells; numeric Excel cells are
modelled with integer value (the script's data holds box/unit counts). -/
inductive Cell where
  | null
  | str (s : String)
  | num (n : Int)
  deriving DecidableEq, Repr

/-- `Cell.isNull c` is pandas `isna` on the raw cell: only a NaN cell is
null; strings (including the empty string) and numbers are not. -/
def Cell.isNull : Cell → Bool
  | .null => true
  | _ => false

/-- Whitespace as stripped by pandas `.str.strip()`. -/
def esEspacio (c : Char) : Bool :=
  c = ' ' || c = '\t' || c = '\n' || c = '\r'

/-- `.str.strip()`: drop leading and trailing whitespace. -/
def stripStr (s : String) : String :=
  ⟨((s.data.dropWhile esEspacio).reverse.dropWhile esEspacio).reverse⟩

/-- `.str.upper()`: upper-case every character. -/
def upperStr (s : String) : String :=
  ⟨s.data.map Char.toUpper⟩

/-- pandas `astype(str)` on a cell: NaN prints as the string "nan",
a string cell is itself, a numeric cell prints its value.  This is the
key step of the script's cleaning code: it runs BEFORE `dropna`, so a
null Product/Brand/Location cell becomes the non-null string "nan". -/
def astypeStr (c : Cell) : String :=
  match c with
  | .null => "nan"
  | .str s => s
  | .num n => toString n

/-- The script's text normalization `astype(str).str.strip().str.upper()`
(lines 64-66 of visualizador.py). -/
def normStr (c : Cell) : String :=
  upperStr (stripStr (astypeStr c))

/-- Digits of a decimal numeral; `none` when empty or a non-digit occurs. -/
def digitosANat (cs : List Char) : Option Nat :=
  if cs.isEmpty then none
  else cs.foldl
    (fun acc? c => acc?.bind (fun acc =>
      if c.isDigit then some (acc * 10 + (c.toNat - 48)) else none))
    (some 0)

/-- Integer-literal parsing: optional sign followed by digits.  This is
the restriction of `pd.to_numeric`'s numeral parsing to integer
literals, which is the only numeric shape the claims exercise; any other
string (e.g. "N/A") fails to parse, exactly as in `errors='coerce'`. -/
def parseEntero (cs : List Char) : Option Int :=
  match cs with
  | '-' :: resto => (digitosANat resto).map (fun n => -(n : Int))
  | '+' :: resto => (digitosANat resto).map (fun n => (n : Int))
  | _ => (digitosANat cs).map (fun n => (n : Int))

/-- The script's numeric coercion (lines 73-74):
`pd.to_numeric(col, errors='coerce').fillna(0).astype(int)`.
A NaN cell and an unparseable string both coerce to NaN and are then
filled with 0; a numeric cell keeps its value (negative included — the
code never clamps). -/
def toNumericCoerce (c : Cell) : Int :=
  match c with
  | .null => 0
  | .num n => n
  | .str s => (parseEntero (stripStr s).data).getD 0

/-- One row of the canonical table (spec: InventoryRow), with the
script's internal column names Producto / Cajas disponibles / Marca /
Ubicacion / Unidades. -/
structure InventoryRow where
  producto : String
  cajas : Int
  marca : String
  ubicacion : String
  unidades : Int
  deriving DecidableEq, Repr

/-- The raw parsed spreadsheet as produced by
`pd.read_excel(..., header=None)`: a column count and the grid of cells
(the first row is the spreadsheet's own human-readable header row and is
treated as data by the parse). -/
structure RawFrame where
  ncols : Nat
  rows : List (List Cell)
  deriving DecidableEq

/-- The classified load failures of the pipeline (spec §7; `FetchError`
concerns the HTTP layer, outside the parsed-frame boundary modelled
here). -/
inductive LoadError where
  | schemaError (expected actual : Nat)
  | emptyDataError
  deriving DecidableEq, Repr

/-- An intermediate row after the rename and the string normalization of
lines 64-66, but before `dropna` and numeric coercion: the three text
columns are already strings (so never NaN), the two numeric columns
still hold their raw cells. -/
structure ProcRow where
  producto : String
  cajasRaw : Cell
  marca : String
  ubicacion : String
  unidadesRaw : Cell
  deriving DecidableEq

/-- Column extraction + rename + text normalization for one raw row
(columns are, in order, DESCRIPCION, CAJAS APROX, MARCA, UBICACION,
UNIDADES, mapped to Producto, Cajas disponibles, Marca, Ubicacion,
Unidades). -/
def procRow (r : List Cell) : ProcRow :=
  { producto := normStr (r.getD 0 .null)
    cajasRaw := r.getD 1 .null
    marca := normStr (r.getD 2 .null)
    ubicacion := normStr (r.getD 3 .null)
    unidadesRaw := r.getD 4 .null }

/-- Numeric coercion of the two raw numeric cells (lines 73-74). -/
def finalizaRow (p : ProcRow) : InventoryRow :=
  { producto := p.producto
    cajas := toNumericCoerce p.cajasRaw
    marca := p.marca
    ubicacion := p.ubicacion
    unidades := toNumericCoerce p.unidadesRaw }

/-- The ingestion pipeline `load_and_process_data` (lines 18-77), from
the parsed raw frame on (fetch and Excel decoding happen before this
boundary):
* column-count check (lines 32-35): count ≠ 5 is a `SchemaError`
  reporting expected and actual counts;
* `iloc[1:]` (line 41): drop the first row (the duplicated header);
* rename + normalization (lines 44-66): `procRow`.  The
  missing-columns check of lines 54-61 is vacuous because the names
  were just assigned, so it is not represented;
* `dropna(subset=['Producto','Marca','Ubicacion','Cajas disponibles'])`
  (line 68): after `astype(str)` the three text columns contain strings
  and can never be NaN, so the only cell that can still be NaN in the
  subset is the raw `Cajas disponibles` cell — the filter keeps exactly
  the rows whose raw cajas cell is non-null;
* emptiness check (lines 69-71): an empty table is the
  `EmptyDataError` condition;
* numeric coercion (lines 73-74): `finalizaRow`. -/
def load_and_process_data (f : RawFrame) : Except LoadError (List InventoryRow) :=
  if f.ncols = 5 then
    let datos := f.rows.drop 1
    let procesadas := datos.map procRow
    let limpias := procesadas.filter (fun p => !(Cell.isNull p.cajasRaw))
    if limpias.isEmpty then .error .emptyDataError
    else .ok (limpias.map finalizaRow)
  else .error (.schemaError 5 f.ncols)

/-- The user's selection triple; each field is a normalized value or the
wildcard `"Todos"` (the script's spelling of the spec's "ALL"). -/
structure FilterSelection where
  marca : String
  ubicacion : String
  producto : String
  deriving DecidableEq

/-- Line 130-131: keep only the selected brand when one is selected. -/
def filtroMarca (sel : FilterSelection) (df : List InventoryRow) : List InventoryRow :=
  if sel.marca ≠ "Todos" then df.filter (fun r => r.marca == sel.marca) else df

/-- Line 132-133: keep only the selected location when one is selected. -/
def filtroUbicacion (sel : FilterSelection) (df : List InventoryRow) : List InventoryRow :=
  if sel.ubicacion ≠ "Todos" then df.filter (fun r => r.ubicacion == sel.ubicacion) else df

/-- Line 134-135: keep only the selected product when one is selected. -/
def filtroProducto (sel : FilterSelection) (df : List InventoryRow) : List InventoryRow :=
  if sel.producto ≠ "Todos" then df.filter (fun r => r.producto == sel.producto) else df

/-- Lines 129-135: the filtered table, applying the brand, location and
product predicates in the script's order (the initial `df.copy()` is the
pure-value semantics of the embedding). -/
def df_filtrado (df : List InventoryRow) (sel : FilterSelection) : List InventoryRow :=
  filtroProducto sel (filtroUbicacion sel (filtroMarca sel df))

/-- Code-point lexicographic order on character lists: Python's string
comparison, used by `sorted(...)` in the script. -/
def lexLe : List Char → List Char → Bool
  | [], _ => true
  | _ :: _, [] => false
  | a :: as, b :: bs =>
      if a.toNat < b.toNat then true
      else if b.toNat < a.toNat then false
      else lexLe as bs

/-- Python string `<=`. -/
def strLe (a b : String) : Bool := lexLe a.data b.data

/-- Ascending sort of strings, as Python's `sorted`. -/
def sortStrings (l : List String) : List String :=
  List.insertionSort (fun a b => strLe a b = true) l

/-- `groupby(key)['Cajas disponibles'].sum().reset_index()`: the
distinct keys in ascending order (pandas `groupby` sorts its keys), each
with the sum of `Cajas disponibles` over its rows. -/
def groupbySum (key : InventoryRow → String) (df : List InventoryRow) :
    List (String × Int) :=
  (sortStrings (df.map key).dedup).map
    (fun k => (k, ((df.filter (fun r => key r == k)).map (·.cajas)).sum))

/-- Lines 108-110: brands with their box totals, sorted by total
descending (`sort_values('Cajas disponibles', ascending=False)`). -/
def df_marcas_ordenadas (df : List InventoryRow) : List (String × Int) :=
  List.insertionSort (fun a b : String × Int => b.2 ≤ a.2) (groupbySum (·.marca) df)

/-- Line 110: the brand selector options, `'Todos'` prepended. -/
def marcas_disponibles (df : List InventoryRow) : List String :=
  "Todos" :: (df_marcas_ordenadas df).map (·.1)

/-- Line 116: the location selector options,
`['Todos'] + sorted(df['Ubicacion'].unique())`. -/
def ubicaciones_disponibles (df : List InventoryRow) : List String :=
  "Todos" :: sortStrings (df.map (·.ubicacion)).dedup

/-- Line 121: the product selector options,
`['Todos'] + sorted(df['Producto'].unique())`. -/
def productos_disponibles (df : List InventoryRow) : List String :=
  "Todos" :: sortStrings (df.map (·.producto)).dedup

/-- Line 183: pie data grouped by brand. -/
def df_marca_total_filtrado (dfF : List InventoryRow) : List (String × Int) :=
  groupbySum (·.marca) dfF

/-- Line 198: pie data grouped by product. -/
def df_producto_total_filtrado (dfF : List InventoryRow) : List (String × Int) :=
  groupbySum (·.producto) dfF

/-- Lines 180-209: the distribution pie chart.  It exists only when no
specific product is selected; with no specific brand either it groups
the filtered table by brand, otherwise by product. -/
def grafico_torta_distribucion (df : List InventoryRow) (sel : FilterSelection) :
    Option (List (String × Int)) :=
  if sel.producto ≠ "Todos" then none
  else if sel.marca = "Todos" then
    some (df_marca_total_filtrado (df_filtrado df sel))
  else
    some (df_producto_total_filtrado (df_filtrado df sel))

/-- Lexicographic order on (Producto, Marca) key pairs: pandas sorts
the `groupby(['Producto','Marca'])` keys by the tuple. -/
def parKeyLe (a b : String × String) : Bool :=
  if a.1 = b.1 then strLe a.2 b.2 else strLe a.1 b.1

/-- Line 234: `groupby(['Producto','Marca'])['Cajas disponibles'].sum()
.reset_index()` on the filtered table. -/
def df_agrupado (dfF : List InventoryRow) : List (String × String × Int) :=
  (List.insertionSort (fun a b => parKeyLe a b = true)
      (dfF.map (fun r => (r.producto, r.marca))).dedup).map
    (fun k => (k.1, k.2,
      ((dfF.filter (fun r => r.producto == k.1 && r.marca == k.2)).map (·.cajas)).sum))

/-- Line 237: `df_agrupado.sort_values('Cajas disponibles',
ascending=True).head(10)` — sort the grouped sums ascending and take the
first 10. -/
def top_10_productos (dfF : List InventoryRow) : List (String × String × Int) :=
  (List.insertionSort (fun a b : String × String × Int => a.2.2 ≤ b.2.2)
      (df_agrupado dfF)).take 10

/-- Lines 269-278: the per-product summary — group the filtered table by
product summing boxes and units, then sort by total boxes descending. -/
def df_resumen_producto (dfF : List InventoryRow) : List (String × Int × Int) :=
  List.insertionSort (fun a b : String × Int × Int => b.2.1 ≤ a.2.1)
    ((sortStrings (dfF.map (·.producto)).dedup).map
      (fun k => (k,
        ((dfF.filter (fun r => r.producto == k)).map (·.cajas)).sum,
        ((dfF.filter (fun r => r.producto == k)).map (·.unidades)).sum)))

/-- The sum of `Cajas disponibles` over the rows of a given brand. -/
def brandTotal (df : List InventoryRow) (b : String) : Int :=
  ((df.filter (fun r => r.marca == b)).map (·.cajas)).sum

/-! ### Concrete inputs used by witnesses and counterexamples -/

/-- The spreadsheet's own first row: the human-readable header labels
that `header=None` parsing turns into a data row (discarded by
`iloc[1:]`). -/
def filaEncabezado : List Cell :=
  [.str "DESCRIPCION", .str "CAJAS APROX", .str "MARCA", .str "UBICACION", .str "UNIDADES"]

/-- A 5-column sheet whose single data row has a null (empty) Product
cell. -/
def frameProductoNulo : RawFrame :=
  ⟨5, [filaEncabezado, [.null, .num 5, .str "BrandX", .str "A1", .num 2]]⟩

/-- A 5-column sheet whose single data row has an empty-string Product
cell (and every data row therefore has an empty Product). -/
def frameProductoVacio : RawFrame :=
  ⟨5, [filaEncabezado, [.str "", .num 5, .str "BrandX", .str "A1", .num 2]]⟩

/-- A 5-column sheet whose single data row has a numeric Cajas cell with
value -3. -/
def frameCajasNegativas : RawFrame :=
  ⟨5, [filaEncabezado, [.str "Apple", .num (-3), .str "B", .str "L", .num 1]]⟩

/-- A 5-column sheet whose single data row has the unparseable string
"N/A" in the Cajas column. -/
def frameCajasNA : RawFrame :=
  ⟨5, [filaEncabezado, [.str "apple", .str "N/A", .str "b", .str "l", .num 7]]⟩

/-- The row `frameCajasNA` loads to: the "N/A" cell coerces to 0 and the
row is retained. -/
def filaNA : InventoryRow :=
  ⟨"APPLE", 0, "B", "L", 7⟩

/-- A sheet whose parse yields 3 columns instead of 5. -/
def frameTresColumnas : RawFrame :=
  ⟨3, [[.str "a", .str "b", .str "c"]]⟩

/-- A filtered table with 11 distinct (Producto, Marca) groups whose box
totals are 1, 2, ..., 11. -/
def dfOnceGrupos : List InventoryRow :=
  [⟨"P01", 1, "M", "U", 0⟩, ⟨"P02", 2, "M", "U", 0⟩, ⟨"P03", 3, "M", "U", 0⟩,
   ⟨"P04", 4, "M", "U", 0⟩, ⟨"P05", 5, "M", "U", 0⟩, ⟨"P06", 6, "M", "U", 0⟩,
   ⟨"P07", 7, "M", "U", 0⟩, ⟨"P08", 8, "M", "U", 0⟩, ⟨"P09", 9, "M", "U", 0⟩,
   ⟨"P10", 10, "M", "U", 0⟩, ⟨"P11", 11, "M", "U", 0⟩]

/-- A small canonical table with two brands. -/
def dfDosMarcas : List InventoryRow :=
  [⟨"PA", 3, "M1", "U1", 1⟩, ⟨"PB", 4, "M2", "U1", 2⟩, ⟨"PC", 5, "M1", "U2", 3⟩]

/-- Selection: brand M1, everything else wildcard. -/
def selMarcaM1 : FilterSelection :=
  ⟨"M1", "Todos", "Todos"⟩

/-! ### Theorems -/

/-- C5: for every input spreadsheet whose parsed column count is not
exactly 5, the load fails with a `SchemaError` carrying the expected
count (5) and the actual count, and never returns a table. -/
theorem c5_schema_error (f : RawFrame) (h : f.ncols ≠ 5) :
    load_and_process_data f = .error (.schemaError 5 f.ncols) := by
  simp [load_and_process_data, h]

/-- Witness for C5 at a concrete 3-column frame. -/
theorem c5_schema_error_witness :
    frameTresColumnas.ncols ≠ 5 ∧
    load_and_process_data frameTresColumnas = .error (.schemaError 5 3) :=
  ⟨by decide, c5_schema_error frameTresColumnas (by decide)⟩

/-- C2 (evaluation at the failing input): a data row whose Product cell
is null is NOT dropped — `astype(str)` runs before `dropna`, so the null
becomes the literal string "nan" and survives as Product "NAN".  The
claim (and the cleaning code's own warning message about removing rows
without a Product) says such a row is removed before coercion. -/
theorem c2_null_product_row_retained :
    load_and_process_data frameProductoNulo =
      .ok [⟨"NAN", 5, "BRANDX", "A1", 2⟩] := by
  rfl

/-- C4 (evaluation at the failing input): a sheet in which every data
row has an empty Product loads successfully to a non-empty table (the
empty-string Product survives cleaning), instead of failing with
`EmptyDataError` as the claim states. -/
theorem c4_empty_product_loads :
    load_and_process_data frameProductoVacio =
      .ok [⟨"", 5, "BRANDX", "A1", 2⟩] := by
  rfl

/-- Counterexample to C3 as stated: a numeric Cajas cell holding -3 is
passed through coercion unchanged, so the loaded table contains a
negative `boxesAvailable`, contradicting "non-negative integers". -/
theorem c3_counterexample_negative :
    load_and_process_data frameCajasNegativas = .ok [⟨"APPLE", -3, "B", "L", 1⟩] ∧
    ¬ (∀ r ∈ [(⟨"APPLE", -3, "B", "L", 1⟩ : InventoryRow)], 0 ≤ r.cajas) :=
  ⟨rfl, by decide⟩

/-- C1 (evaluation at the failing input): on a filtered table with 11
distinct (Producto, Marca) groups with sums 1..11, the bar-chart table
`top_10_productos` contains the 10 SMALLEST sums 1..10 in ascending
order and omits the largest group (sum 11) — the code sorts ascending
and takes `head(10)`, so the chart titled "Top 10" shows the bottom 10,
contradicting the claim that the 10 largest are selected. -/
theorem c1_top10_takes_smallest :
    (top_10_productos dfOnceGrupos).map (fun t => t.2.2) =
      [1, 2, 3, 4, 5, 6, 7, 8, 9, 10] ∧
    ("P11", "M", (11 : Int)) ∉ top_10_productos dfOnceGrupos := by
  decide

/-- Characterization of lines 129-135: the three sequential filters are
one conjunctive exact-match filter, each conjunct disabled by the
`"Todos"` wildcard. -/
theorem df_filtrado_eq_filter (df : List InventoryRow) (sel : FilterSelection) :
    df_filtrado df sel = df.filter (fun r =>
      (decide (sel.marca = "Todos") || r.marca == sel.marca) &&
      ((decide (sel.ubicacion = "Todos") || r.ubicacion == sel.ubicacion) &&
       (decide (sel.producto = "Todos") || r.producto == sel.producto))) := by
  unfold df_filtrado filtroMarca filtroUbicacion filtroProducto
  by_cases hm : sel.marca = "Todos" <;> by_cases hu : sel.ubicacion = "Todos" <;>
    by_cases hp : sel.producto = "Todos" <;>
    simp [hm, hu, hp, List.filter_filter, Bool.and_comm, Bool.and_left_comm, Bool.and_assoc]

/-- The brand and location filter steps commute. -/
theorem filtros_conmutan_mu (df : List InventoryRow) (sel : FilterSelection) :
    filtroMarca sel (filtroUbicacion sel df) = filtroUbicacion sel (filtroMarca sel df) := by
  unfold filtroMarca filtroUbicacion
  by_cases hm : sel.marca = "Todos" <;> by_cases hu : sel.ubicacion = "Todos" <;>
    simp [hm, hu, List.filter_filter, Bool.and_comm]

/-- The brand and product filter steps commute. -/
theorem filtros_conmutan_mp (df : List InventoryRow) (sel : FilterSelection) :
    filtroMarca sel (filtroProducto sel df) = filtroProducto sel (filtroMarca sel df) := by
  unfold filtroMarca filtroProducto
  by_cases hm : sel.marca = "Todos" <;> by_cases hp : sel.producto = "Todos" <;>
    simp [hm, hp, List.filter_filter, Bool.and_comm]

/-- The location and product filter steps commute. -/
theorem filtros_conmutan_up (df : List InventoryRow) (sel : FilterSelection) :
    filtroUbicacion sel (filtroProducto sel df) = filtroProducto sel (filtroUbicacion sel df) := by
  unfold filtroUbicacion filtroProducto
  by_cases hu : sel.ubicacion = "Todos" <;> by_cases hp : sel.producto = "Todos" <;>
    simp [hu, hp, List.filter_filter, Bool.and_comm]

/-- Totality of the code-point lexicographic order. -/
theorem lexLe_total : ∀ as bs : List Char, lexLe as bs = true ∨ lexLe bs as = true := by
  intro as
  induction as with
  | nil => intro bs; left; rfl
  | cons a as ih =>
    intro bs
    cases bs with
    | nil => right; rfl
    | cons b bs =>
      by_cases h1 : a.toNat < b.toNat
      · left; simp [lexLe, h1]
      · by_cases h2 : b.toNat < a.toNat
        · right; simp [lexLe, h2]
        · rcases ih bs with h | h
          · left; simp [lexLe, h1, h2, h]
          · right; simp [lexLe, h1, h2, h]

/-- Transitivity of the code-point lexicographic order. -/
theorem lexLe_trans : ∀ as bs cs : List Char,
    lexLe as bs = true → lexLe bs cs = true → lexLe as cs = true := by
  intro as
  induction as with
  | nil => intro bs cs _ _; rfl
  | cons a as ih =>
    intro bs cs hab hbc
    cases bs with
    | nil => simp [lexLe] at hab
    | cons b bs =>
      cases cs with
      | nil => simp [lexLe] at hbc
      | cons c cs =>
        by_cases h1 : a.toNat < b.toNat <;> by_cases h2 : b.toNat < c.toNat
        · simp [lexLe, Nat.lt_trans h1 h2]
        · by_cases h3 : c.toNat < b.toNat
          · simp [lexLe, h2, h3] at hbc
          · have hac : a.toNat < c.toNat := by omega
            simp [lexLe, hac]
        · by_cases h3 : b.toNat < a.toNat
          · simp [lexLe, h1, h3] at hab
          · have hac : a.toNat < c.toNat := by omega
            simp [lexLe, hac]
        · by_cases h3 : b.toNat < a.toNat
          · simp [lexLe, h1, h3] at hab
          · by_cases h4 : c.toNat < b.toNat
            · simp [lexLe, h2, h4] at hbc
            · have hac1 : ¬ a.toNat < c.toNat := by omega
              have hac2 : ¬ c.toNat < a.toNat := by omega
              simp [lexLe, h1, h3] at hab
              simp [lexLe, h2, h4] at hbc
              simp [lexLe, hac1, hac2]
              exact ih bs cs hab hbc

/-- Sorting strings permutes them. -/
theorem sortStrings_perm (l : List String) : (sortStrings l).Perm l :=
  List.perm_insertionSort _ l

/-- Sorting strings yields an ascending list. -/
theorem sortStrings_pairwise (l : List String) :
    (sortStrings l).Pairwise (fun a b => strLe a b = true) := by
  haveI : IsTotal String (fun a b => strLe a b = true) :=
    ⟨fun a b => lexLe_total a.data b.data⟩
  haveI : IsTrans String (fun a b => strLe a b = true) :=
    ⟨fun a b c => lexLe_trans a.data b.data c.data⟩
  exact List.sorted_insertionSort _ l

/-- Summing a constant zero over any index list gives zero. -/
theorem suma_map_cero {α : Type} (l : List α) : (l.map (fun _ => (0 : Int))).sum = 0 := by
  induction l with
  | nil => rfl
  | cons a l ih => simp [ih]

/-- Mapped sums split over pointwise addition. -/
theorem suma_map_add {α : Type} (f g : α → Int) (l : List α) :
    (l.map (fun x => f x + g x)).sum = (l.map f).sum + (l.map g).sum := by
  induction l with
  | nil => rfl
  | cons a l ih => simp [ih]; ring

/-- An indicator sum over keys not containing the probe is zero. -/
theorem suma_if_no_mem (ks : List String) (x : String) (c : Int) (hx : x ∉ ks) :
    (ks.map (fun k => if x = k then c else 0)).sum = 0 := by
  induction ks with
  | nil => rfl
  | cons k ks ih =>
    have hxk : x ≠ k := by intro h; exact hx (h ▸ List.mem_cons_self k ks)
    have hxks : x ∉ ks := fun h => hx (List.mem_cons_of_mem _ h)
    simp [hxk, ih hxks]

/-- An indicator sum over a duplicate-free key list containing the probe
once is the indicated value. -/
theorem suma_if_mem (ks : List String) (x : String) (c : Int) (hnd : ks.Nodup)
    (hx : x ∈ ks) :
    (ks.map (fun k => if x = k then c else 0)).sum = c := by
  induction ks with
  | nil => cases hx
  | cons k ks ih =>
    rcases List.nodup_cons.mp hnd with ⟨hk, hnd'⟩
    rcases List.mem_cons.mp hx with h | h
    · subst h
      simp [suma_if_no_mem ks x c hk]
    · have hxk : x ≠ k := fun he => hk (he ▸ h)
      simp [hxk, ih hnd' h]

/-- Grouping rows by key and summing per group conserves the total: the
sum over the duplicate-free covering key list of the per-key fiber sums
equals the ungrouped sum. -/
theorem suma_fibras {α : Type} (key : α → String) (f : α → Int) (df : List α)
    (ks : List String) (hnd : ks.Nodup) (hmem : ∀ r ∈ df, key r ∈ ks) :
    (ks.map (fun k => ((df.filter (fun r => key r == k)).map f).sum)).sum
      = (df.map f).sum := by
  induction df with
  | nil => simp
  | cons a df ih =>
    have h1 : (fun k => (((a :: df).filter (fun r => key r == k)).map f).sum)
        = (fun k => (if key a = k then f a else 0)
            + ((df.filter (fun r => key r == k)).map f).sum) := by
      funext k
      by_cases h : key a = k
      · simp [List.filter_cons, h]
      · simp [List.filter_cons, h]
    rw [h1, suma_map_add]
    rw [suma_if_mem ks (key a) (f a) hnd (hmem a (List.mem_cons_self a df))]
    rw [ih (fun r hr => hmem r (List.mem_cons_of_mem a hr))]
    simp

/-- C6: filtering applies each non-wildcard field as an exact-match
equality predicate, conjunctively across brand, location and product;
the all-wildcard selection returns the table unchanged; and the three
per-field filter steps commute pairwise (hence in any order). -/
theorem c6_filtro (df : List InventoryRow) (sel : FilterSelection) :
    df_filtrado df ⟨"Todos", "Todos", "Todos"⟩ = df ∧
    df_filtrado df sel = df.filter (fun r =>
      (decide (sel.marca = "Todos") || r.marca == sel.marca) &&
      ((decide (sel.ubicacion = "Todos") || r.ubicacion == sel.ubicacion) &&
       (decide (sel.producto = "Todos") || r.producto == sel.producto))) ∧
    filtroMarca sel (filtroUbicacion sel df) = filtroUbicacion sel (filtroMarca sel df) ∧
    filtroMarca sel (filtroProducto sel df) = filtroProducto sel (filtroMarca sel df) ∧
    filtroUbicacion sel (filtroProducto sel df) = filtroProducto sel (filtroUbicacion sel df) :=
  ⟨by simp [df_filtrado, filtroMarca, filtroUbicacion, filtroProducto],
   df_filtrado_eq_filter df sel,
   filtros_conmutan_mu df sel, filtros_conmutan_mp df sel, filtros_conmutan_up df sel⟩

/-- C10: the filtered table is an order-preserving subsequence
(`List.Sublist`) of the canonical table; the source list itself is a
pure value and is never mutated. -/
theorem c10_subsecuencia (df : List InventoryRow) (sel : FilterSelection) :
    (df_filtrado df sel).Sublist df := by
  rw [df_filtrado_eq_filter]
  exact List.filter_sublist df

/-- When a specific brand is selected, every row surviving the filter
carries exactly that brand. -/
theorem mem_df_filtrado_marca (df : List InventoryRow) (sel : FilterSelection)
    (hm : sel.marca ≠ "Todos") (r : InventoryRow) (hr : r ∈ df_filtrado df sel) :
    r.marca = sel.marca := by
  rw [df_filtrado_eq_filter] at hr
  have h := (List.mem_filter.mp hr).2
  simp [hm] at h
  exact h.1

/-- C8: the distribution pie exists only when the product selection is
the wildcard; then with brand also wildcard it groups the filtered table
by brand and sums boxes, and with a specific brand it groups by product,
over rows that all carry the selected brand. -/
theorem c8_torta (df : List InventoryRow) (sel : FilterSelection) :
    (sel.producto ≠ "Todos" → grafico_torta_distribucion df sel = none) ∧
    (sel.producto = "Todos" → sel.marca = "Todos" →
      grafico_torta_distribucion df sel =
        some (df_marca_total_filtrado (df_filtrado df sel))) ∧
    (sel.producto = "Todos" → sel.marca ≠ "Todos" →
      grafico_torta_distribucion df sel =
        some (df_producto_total_filtrado (df_filtrado df sel)) ∧
      ∀ r ∈ df_filtrado df sel, r.marca = sel.marca) := by
  refine ⟨fun hp => ?_, fun hp hm => ?_, fun hp hm =>
    ⟨?_, fun r hr => mem_df_filtrado_marca df sel hm r hr⟩⟩
  · simp [grafico_torta_distribucion, hp]
  · simp [grafico_torta_distribucion, hp, hm]
  · simp [grafico_torta_distribucion, hp, hm]

/-- Witness for C8 at the selection (brand M1, wildcard location and
product) on a concrete table. -/
theorem c8_torta_witness :
    grafico_torta_distribucion dfDosMarcas selMarcaM1 =
      some (df_producto_total_filtrado (df_filtrado dfDosMarcas selMarcaM1)) ∧
    ∀ r ∈ df_filtrado dfDosMarcas selMarcaM1, r.marca = selMarcaM1.marca :=
  (c8_torta dfDosMarcas selMarcaM1).2.2 rfl (by decide)

/-- C7: the per-product summary conserves the total of boxes — the sum
of the summed-boxes column equals the sum of boxes over the filtered
table — and is sorted descending by total boxes. -/
theorem c7_resumen (dfF : List InventoryRow) :
    ((df_resumen_producto dfF).map (fun x => x.2.1)).sum = (dfF.map (·.cajas)).sum ∧
    (df_resumen_producto dfF).Pairwise (fun a b => b.2.1 ≤ a.2.1) := by
  have hnd : (sortStrings (dfF.map (·.producto)).dedup).Nodup :=
    ((sortStrings_perm _).nodup_iff).mpr (List.nodup_dedup _)
  have hmem : ∀ r ∈ dfF, r.producto ∈ sortStrings (dfF.map (·.producto)).dedup := by
    intro r hr
    exact ((sortStrings_perm _).mem_iff).mpr
      (List.mem_dedup.mpr (List.mem_map_of_mem _ hr))
  constructor
  · have hperm := List.perm_insertionSort
      (fun a b : String × Int × Int => b.2.1 ≤ a.2.1)
      ((sortStrings (dfF.map (·.producto)).dedup).map
        (fun k => (k,
          ((dfF.filter (fun r => r.producto == k)).map (·.cajas)).sum,
          ((dfF.filter (fun r => r.producto == k)).map (·.unidades)).sum)))
    unfold df_resumen_producto
    rw [(hperm.map (fun x => x.2.1)).sum_eq, List.map_map]
    exact suma_fibras (fun r => r.producto) (fun r => r.cajas) dfF _ hnd hmem
  · haveI : IsTotal (String × Int × Int) (fun a b => b.2.1 ≤ a.2.1) :=
      ⟨fun a b => le_total b.2.1 a.2.1⟩
    haveI : IsTrans (String × Int × Int) (fun a b => b.2.1 ≤ a.2.1) :=
      ⟨fun a b c h1 h2 => le_trans h2 h1⟩
    exact List.sorted_insertionSort _ _

/-- C9: the brand selector is the wildcard followed by the distinct
brands ranked by descending total boxes, and the location and product
selectors are the wildcard followed by the distinct values in ascending
code-point (alphabetical) order. -/
theorem c9_selectores (df : List InventoryRow) :
    (∃ ms, marcas_disponibles df = "Todos" :: ms ∧
       ms.Perm (df.map (·.marca)).dedup ∧
       ms.Pairwise (fun a b => brandTotal df b ≤ brandTotal df a)) ∧
    (∃ us, ubicaciones_disponibles df = "Todos" :: us ∧
       us.Perm (df.map (·.ubicacion)).dedup ∧
       us.Pairwise (fun a b => strLe a b = true)) ∧
    (∃ ps, productos_disponibles df = "Todos" :: ps ∧
       ps.Perm (df.map (·.producto)).dedup ∧
       ps.Pairwise (fun a b => strLe a b = true)) := by
  refine ⟨⟨(df_marcas_ordenadas df).map (fun x : String × Int => x.1), rfl, ?_, ?_⟩,
          ⟨sortStrings (df.map (fun r : InventoryRow => r.ubicacion)).dedup, rfl,
            sortStrings_perm _, sortStrings_pairwise _⟩,
          ⟨sortStrings (df.map (fun r : InventoryRow => r.producto)).dedup, rfl,
            sortStrings_perm _, sortStrings_pairwise _⟩⟩
  · have h1 : (df_marcas_ordenadas df).Perm (groupbySum (·.marca) df) :=
      List.perm_insertionSort _ _
    have h2 := h1.map (fun x : String × Int => x.1)
    have h3 : (groupbySum (·.marca) df).map (fun x : String × Int => x.1)
        = sortStrings (df.map (·.marca)).dedup := by
      unfold groupbySum
      rw [List.map_map]
      exact List.map_id' _
    exact (h3 ▸ h2).trans (sortStrings_perm _)
  · haveI : IsTotal (String × Int) (fun a b => b.2 ≤ a.2) :=
      ⟨fun a b => le_total b.2 a.2⟩
    haveI : IsTrans (String × Int) (fun a b => b.2 ≤ a.2) :=
      ⟨fun a b c h1 h2 => le_trans h2 h1⟩
    have hs : (df_marcas_ordenadas df).Pairwise (fun a b => b.2 ≤ a.2) := by
      unfold df_marcas_ordenadas
      exact List.sorted_insertionSort _ _
    have hval : ∀ x ∈ df_marcas_ordenadas df, x.2 = brandTotal df x.1 := by
      intro x hx
      have hx' : x ∈ groupbySum (·.marca) df :=
        ((List.perm_insertionSort (fun a b : String × Int => b.2 ≤ a.2)
          (groupbySum (·.marca) df)).mem_iff).mp hx
      obtain ⟨k, hk, rfl⟩ := List.mem_map.mp hx'
      rfl
    have hs2 : (df_marcas_ordenadas df).Pairwise
        (fun a b => brandTotal df b.1 ≤ brandTotal df a.1) :=
      hs.imp_of_mem (fun ha hb h => by rw [← hval _ ha, ← hval _ hb]; exact h)
    exact List.pairwise_map.mpr hs2

/-- C3 (amended): numeric coercion is lenient and total — the load keeps
exactly the rows whose raw boxes cell is non-null, and every kept row's
boxes and units are the lenient coercion of its source cells (the value
itself when parseable, 0 when not, never an error and never a dropped
row). -/
theorem c3_coercion_indulgente (f : RawFrame) (t : List InventoryRow)
    (h : load_and_process_data f = .ok t) :
    t.length = ((f.rows.drop 1).filter
        (fun r => !(Cell.isNull (r.getD 1 Cell.null)))).length ∧
    ∀ r ∈ t, ∃ raw ∈ f.rows.drop 1,
      Cell.isNull (raw.getD 1 Cell.null) = false ∧
      r.cajas = toNumericCoerce (raw.getD 1 Cell.null) ∧
      r.unidades = toNumericCoerce (raw.getD 4 Cell.null) := by
  unfold load_and_process_data at h
  by_cases h5 : f.ncols = 5
  · rw [if_pos h5] at h
    by_cases he : ((f.rows.drop 1).map procRow).filter
        (fun p => !(Cell.isNull p.cajasRaw)) |>.isEmpty
    · rw [if_pos he] at h
      simp at h
    · rw [if_neg he] at h
      injection h with ht
      subst ht
      constructor
      · rw [List.length_map, List.filter_map, List.length_map]
        rfl
      · intro r hr
        obtain ⟨p, hp, rfl⟩ := List.mem_map.mp hr
        obtain ⟨hpm, hpred⟩ := List.mem_filter.mp hp
        obtain ⟨raw, hraw, rfl⟩ := List.mem_map.mp hpm
        refine ⟨raw, hraw, ?_, rfl, rfl⟩
        have h2 : (procRow raw).cajasRaw.isNull = false := by simpa using hpred
        exact h2
  · rw [if_neg h5] at h
    simp at h

/-- Witness for C3 (amended) at a sheet with an unparseable "N/A" boxes
cell: the row is kept with boxes 0. -/
theorem c3_coercion_indulgente_witness :
    load_and_process_data frameCajasNA = .ok [filaNA] ∧
    (([filaNA] : List InventoryRow).length = ((frameCajasNA.rows.drop 1).filter
        (fun r => !(Cell.isNull (r.getD 1 Cell.null)))).length ∧
     ∀ r ∈ [filaNA], ∃ raw ∈ frameCajasNA.rows.drop 1,
       Cell.isNull (raw.getD 1 Cell.null) = false ∧
       r.cajas = toNumericCoerce (raw.getD 1 Cell.null) ∧
       r.unidades = toNumericCoerce (raw.getD 4 Cell.null)) :=
  ⟨rfl, c3_coercion_indulgente frameCajasNA [filaNA] rfl⟩
